import Mathlib

/-!
Verification of the PySpW RMAP/SpaceWire core: a shallow embedding of
`pyspw/RMAP.py` and `pyspw/SpaceWire.py` together with theorems about the
packet codec, the CRC routine, the SSDTP2 framing layer, and the
transaction-engine state operations.

Bytes are modelled as `Nat` values (< 256 where the source guarantees it),
byte strings as `List Nat`, Python `None`-able CRC-type integers as
`Option Int`, and fallible paths (struct errors, assertions, index errors)
as `Option` / `Except`.
-/

namespace PySpW

/-- RMAP CRC table for Draft E (`CRCTable_DraftE` in RMAP.py). -/
def CRCTable_DraftE : List Nat := [ 0x00, 0x07, 0x0e, 0x09, 0x1c, 0x1b,
  0x12, 0x15, 0x38, 0x3f, 0x36, 0x31, 0x24, 0x23, 0x2a, 0x2d, 0x70, 0x77,
  0x7e, 0x79, 0x6c, 0x6b, 0x62, 0x65, 0x48, 0x4f, 0x46, 0x41, 0x54, 0x53,
  0x5a, 0x5d, 0xe0, 0xe7, 0xee, 0xe9, 0xfc, 0xfb, 0xf2, 0xf5, 0xd8, 0xdf,
  0xd6, 0xd1, 0xc4, 0xc3, 0xca, 0xcd, 0x90, 0x97, 0x9e, 0x99, 0x8c, 0x8b,
  0x82, 0x85, 0xa8, 0xaf, 0xa6, 0xa1, 0xb4, 0xb3, 0xba, 0xbd, 0xc7, 0xc0,
  0xc9, 0xce, 0xdb, 0xdc, 0xd5, 0xd2, 0xff, 0xf8, 0xf1, 0xf6, 0xe3, 0xe4,
  0xed, 0xea, 0xb7, 0xb0, 0xb9, 0xbe, 0xab, 0xac, 0xa5, 0xa2, 0x8f, 0x88,
  0x81, 0x86, 0x93, 0x94, 0x9d, 0x9a, 0x27, 0x20, 0x29, 0x2e, 0x3b, 0x3c,
  0x35, 0x32, 0x1f, 0x18, 0x11, 0x16, 0x03, 0x04, 0x0d, 0x0a, 0x57, 0x50,
  0x59, 0x5e, 0x4b, 0x4c, 0x45, 0x42, 0x6f, 0x68, 0x61, 0x66, 0x73, 0x74,
  0x7d, 0x7a, 0x89, 0x8e, 0x87, 0x80, 0x95, 0x92, 0x9b, 0x9c, 0xb1, 0xb6,
  0xbf, 0xb8, 0xad, 0xaa, 0xa3, 0xa4, 0xf9, 0xfe, 0xf7, 0xf0, 0xe5, 0xe2,
  0xeb, 0xec, 0xc1, 0xc6, 0xcf, 0xc8, 0xdd, 0xda, 0xd3, 0xd4, 0x69, 0x6e,
  0x67, 0x60, 0x75, 0x72, 0x7b, 0x7c, 0x51, 0x56, 0x5f, 0x58, 0x4d, 0x4a,
  0x43, 0x44, 0x19, 0x1e, 0x17, 0x10, 0x05, 0x02, 0x0b, 0x0c, 0x21, 0x26,
  0x2f, 0x28, 0x3d, 0x3a, 0x33, 0x34, 0x4e, 0x49, 0x40, 0x47, 0x52, 0x55,
  0x5c, 0x5b, 0x76, 0x71, 0x78, 0x7f, 0x6a, 0x6d, 0x64, 0x63, 0x3e, 0x39,
  0x30, 0x37, 0x22, 0x25, 0x2c, 0x2b, 0x06, 0x01, 0x08, 0x0f, 0x1a, 0x1d,
  0x14, 0x13, 0xae, 0xa9, 0xa0, 0xa7, 0xb2, 0xb5, 0xbc, 0xbb, 0x96, 0x91,
  0x98, 0x9f, 0x8a, 0x8d, 0x84, 0x83, 0xde, 0xd9, 0xd0, 0xd7, 0xc2, 0xc5,
  0xcc, 0xcb, 0xe6, 0xe1, 0xe8, 0xef, 0xfa, 0xfd, 0xf4, 0xf3 ]

/-- RMAP CRC table for Draft F (`CRCTable_DraftF` in RMAP.py). -/
def CRCTable_DraftF : List Nat := [ 0x00, 0x91, 0xe3, 0x72, 0x07, 0x96,
  0xe4, 0x75, 0x0e, 0x9f, 0xed, 0x7c, 0x09, 0x98, 0xea, 0x7b, 0x1c, 0x8d,
  0xff, 0x6e, 0x1b, 0x8a, 0xf8, 0x69, 0x12, 0x83, 0xf1, 0x60, 0x15, 0x84,
  0xf6, 0x67, 0x38, 0xa9, 0xdb, 0x4a, 0x3f, 0xae, 0xdc, 0x4d, 0x36, 0xa7,
  0xd5, 0x44, 0x31, 0xa0, 0xd2, 0x43, 0x24, 0xb5, 0xc7, 0x56, 0x23, 0xb2,
  0xc0, 0x51, 0x2a, 0xbb, 0xc9, 0x58, 0x2d, 0xbc, 0xce, 0x5f, 0x70, 0xe1,
  0x93, 0x02, 0x77, 0xe6, 0x94, 0x05, 0x7e, 0xef, 0x9d, 0x0c, 0x79, 0xe8,
  0x9a, 0x0b, 0x6c, 0xfd, 0x8f, 0x1e, 0x6b, 0xfa, 0x88, 0x19, 0x62, 0xf3,
  0x81, 0x10, 0x65, 0xf4, 0x86, 0x17, 0x48, 0xd9, 0xab, 0x3a, 0x4f, 0xde,
  0xac, 0x3d, 0x46, 0xd7, 0xa5, 0x34, 0x41, 0xd0, 0xa2, 0x33, 0x54, 0xc5,
  0xb7, 0x26, 0x53, 0xc2, 0xb0, 0x21, 0x5a, 0xcb, 0xb9, 0x28, 0x5d, 0xcc,
  0xbe, 0x2f, 0xe0, 0x71, 0x03, 0x92, 0xe7, 0x76, 0x04, 0x95, 0xee, 0x7f,
  0x0d, 0x9c, 0xe9, 0x78, 0x0a, 0x9b, 0xfc, 0x6d, 0x1f, 0x8e, 0xfb, 0x6a,
  0x18, 0x89, 0xf2, 0x63, 0x11, 0x80, 0xf5, 0x64, 0x16, 0x87, 0xd8, 0x49,
  0x3b, 0xaa, 0xdf, 0x4e, 0x3c, 0xad, 0xd6, 0x47, 0x35, 0xa4, 0xd1, 0x40,
  0x32, 0xa3, 0xc4, 0x55, 0x27, 0xb6, 0xc3, 0x52, 0x20, 0xb1, 0xca, 0x5b,
  0x29, 0xb8, 0xcd, 0x5c, 0x2e, 0xbf, 0x90, 0x01, 0x73, 0xe2, 0x97, 0x06,
  0x74, 0xe5, 0x9e, 0x0f, 0x7d, 0xec, 0x99, 0x08, 0x7a, 0xeb, 0x8c, 0x1d,
  0x6f, 0xfe, 0x8b, 0x1a, 0x68, 0xf9, 0x82, 0x13, 0x61, 0xf0, 0x85, 0x14,
  0x66, 0xf7, 0xa8, 0x39, 0x4b, 0xda, 0xaf, 0x3e, 0x4c, 0xdd, 0xa6, 0x37,
  0x45, 0xd4, 0xa1, 0x30, 0x42, 0xd3, 0xb4, 0x25, 0x57, 0xc6, 0xb3, 0x22,
  0x50, 0xc1, 0xba, 0x2b, 0x59, 0xc8, 0xbd, 0x2c, 0x5e, 0xcf ]

/-- Source: `CRCTable_52C = CRCTable_DraftF` in RMAP.py. -/
def CRCTable_52C : List Nat := CRCTable_DraftF

/-- Source: `CRCTable_Custom = ()` in RMAP.py: the shipped custom table is empty. -/
def CRCTable_Custom : List Nat := []

/-- CRC mode constant `CRC_DraftE = 0`; the Python value `None` for the CRC
type is modelled as `Option.none`, so the constants are `some` integers. -/
def CRC_DraftE : Option Int := some 0

/-- CRC mode constant `CRC_DraftF = 1`. -/
def CRC_DraftF : Option Int := some 1

/-- CRC mode constant `CRC_52C = 2`. -/
def CRC_52C : Option Int := some 2

/-- CRC mode constant `CRC_Custom = -1`. -/
def CRC_Custom : Option Int := some (-1)

/-- Function `calc_crc(crc, data)` from RMAP.py: select a table by CRC type
(Draft F and 52C share a table; Draft E and Custom have their own; any
other type, including `None`, yields `0x00` immediately), then fold
`x ↦ table[(x ^ y) & 0xff]` over the data bytes starting from `0x00`.
A table lookup out of range (Python `IndexError`) is modelled as `none`. -/
def calc_crc (crc : Option Int) (data : List Nat) : Option Nat :=
  if crc = CRC_DraftF ∨ crc = CRC_52C then
    data.foldl (fun acc y => acc.bind fun x => CRCTable_DraftF.get? ((x ^^^ y) &&& 0xff)) (some 0)
  else if crc = CRC_DraftE then
    data.foldl (fun acc y => acc.bind fun x => CRCTable_DraftE.get? ((x ^^^ y) &&& 0xff)) (some 0)
  else if crc = CRC_Custom then
    data.foldl (fun acc y => acc.bind fun x => CRCTable_Custom.get? ((x ^^^ y) &&& 0xff)) (some 0)
  else
    some 0

/-- Big-endian 16-bit pack, `struct.pack('>H', v)` for `v < 2^16`. -/
def pack_BE16 (v : Nat) : List Nat := [v / 256 % 256, v % 256]

/-- Big-endian 32-bit pack, `struct.pack('>L', v)` for `v < 2^32`. -/
def pack_BE32 (v : Nat) : List Nat :=
  [v / 2 ^ 24 % 256, v / 2 ^ 16 % 256, v / 256 % 256, v % 256]

/-- Little-endian 16-bit pack, `struct.pack('<H', v)` for `v < 2^16`. -/
def pack_LE16 (v : Nat) : List Nat := [v % 256, v / 256 % 256]

/-- Little-endian 32-bit pack, `struct.pack('<L', v)` for `v < 2^32`. -/
def pack_LE32 (v : Nat) : List Nat :=
  [v % 256, v / 256 % 256, v / 2 ^ 16 % 256, v / 2 ^ 24 % 256]

/-- RMAP destination descriptor (`class Destination` in RMAP.py): destination
logical address, destination key, source logical address, CRC type
(`Option Int`, `none` = Python `None`), word width. -/
structure Destination where
  dest_address : Nat
  dest_key : Nat
  src_address : Nat
  crc : Option Int
  word_width : Nat
  deriving DecidableEq, Repr

/-- The process-wide `Destination.dictionary`: key `(dest_address, src_address)`,
value `(dest_key, crc, word_width)`, modelled as an explicit association list
passed to the operations that consult it. -/
def DestDict := List ((Nat × Nat) × (Nat × Option Int × Nat))

/-- Constructor call `Destination(src_address, dest_address)` with only the two addresses:
look the pair up in the dictionary; on a miss fall back to the defaults
`dest_key = 0x00`, `crc = None`, `word_width = 1` (RMAP.py lines 437-446). -/
def destination_lookup (dict : DestDict) (src_address dest_address : Nat) : Destination :=
  match dict.find? (fun e => e.1 = (dest_address, src_address)) with
  | some e => ⟨dest_address, e.2.1, src_address, e.2.2.1, e.2.2.2⟩
  | none => ⟨dest_address, 0x00, src_address, none, 1⟩

/-- The data-payload encoding inside `packetize` (RMAP.py lines 506-517):
word width 1 packs each word as one byte, width 2 as `'<H'`, width 4 as
`'<L'`; any other width hits `assert False`, modelled as `none`. -/
def encode_data (word_width : Nat) (data : List Nat) : Option (List Nat) :=
  if word_width = 1 then some data
  else if word_width = 2 then some (data.flatMap pack_LE16)
  else if word_width = 4 then some (data.flatMap pack_LE32)
  else none

/-- The 15 header bytes assembled by `packetize` (RMAP.py lines 489-502):
target address, protocol ID `0x01`, instruction byte `com`, key, initiator
address, big-endian TID, extended address, big-endian 32-bit memory
address, and the 24-bit data length `length * word_width` split
`(blength >> 16) & 0xff` then `'>H'`. -/
def rmap_header (tid : Nat) (dest : Destination) (address : Nat) (length : Nat)
    (com : Nat) (extended_address : Nat) : List Nat :=
  let blength := length * dest.word_width
  [dest.dest_address, 0x01, com, dest.dest_key, dest.src_address]
    ++ pack_BE16 tid ++ [extended_address] ++ pack_BE32 address
    ++ [blength / 2 ^ 16 % 256] ++ pack_BE16 (blength % 2 ^ 16)

/-- Function `packetize(tid, dest, address, length, data, **kwargs)` from RMAP.py.
`data = none` encodes a read command, `data = some d` a write command.
The keyword arguments `increment`, `verify`, `ack`, `extended_address`
are passed explicitly (their Python defaults are 1, 1, 1, 0).
The write instruction byte reproduces the source's operator precedence:
`(0x1 << 6) + ((0x8 + (verify << 2) + (ack << 1) + increment) << 2) + 0x0`.
The result is `none` when a CRC table lookup fails (Custom table) or the
word width is unsupported for data encoding. -/
def packetize (tid : Nat) (dest : Destination) (address : Nat) (length : Nat)
    (data : Option (List Nat)) (increment : Nat) (verify : Nat) (ack : Nat)
    (extended_address : Nat) : Option (List Nat) :=
  let com : Nat :=
    match data with
    | none => (0x1 <<< 6) + ((0x2 + increment) <<< 2) + 0x0
    | some _ => (0x1 <<< 6) + ((0x8 + (verify <<< 2) + (ack <<< 1) + increment) <<< 2) + 0x0
  let header : List Nat := rmap_header tid dest address length com extended_address
  match calc_crc dest.crc header with
  | none => none
  | some hcrc =>
    match data with
    | none => some (header ++ [hcrc])
    | some d =>
      match encode_data dest.word_width d with
      | none => none
      | some enc =>
        match calc_crc dest.crc enc with
        | none => none
        | some dcrc => some (header ++ [hcrc] ++ enc ++ [dcrc])

/-- Failure modes of `depacketize`: a too-short packet (Python `struct.error`
or an out-of-range slice), the protocol-ID assertion, a CRC-check assertion,
the unsupported-word-width assertion, and an `IndexError` raised inside
`calc_crc` (empty Custom table). -/
inductive DepackError where
  | short
  | badProtocol
  | crcMismatch
  | badWordWidth
  | crcTableIndex
  deriving DecidableEq, Repr

/-- Little-endian 16-bit word decoding, `struct.unpack('<H'*n, seg)`:
consecutive byte pairs `b0, b1 ↦ b0 + 256*b1`. -/
def le_words2 : List Nat → List Nat
  | b0 :: b1 :: rest => (b0 + b1 * 256) :: le_words2 rest
  | _ => []

/-- Little-endian 32-bit word decoding, `struct.unpack('<L'*n, seg)`. -/
def le_words4 : List Nat → List Nat
  | b0 :: b1 :: b2 :: b3 :: rest =>
    (b0 + b1 * 256 + b2 * 2 ^ 16 + b3 * 2 ^ 24) :: le_words4 rest
  | _ => []

/-- Evaluate a CRC check `assert crc == calc_crc(dest.crc, seg)` performed
when `check_crc` is true: `calc_crc` failing with `IndexError` is
`crcTableIndex`; an unequal value is `crcMismatch`. -/
def crc_check (check_crc : Bool) (crc_type : Option Int) (seg : List Nat)
    (crc : Nat) : Except DepackError Unit :=
  if check_crc then
    match calc_crc crc_type seg with
    | none => .error .crcTableIndex
    | some c => if crc = c then .ok () else .error .crcMismatch
  else .ok ()

/-- Function `depacketize(packet, check_crc)` from RMAP.py (lines 521-582). Returns
`(tid, dest, status, data, (rw, verify, ack, increment))`. The destination
is recovered with `Destination(src_address, dest_address)` against the
process-wide dictionary, here the explicit `dict`. -/
def depacketize (dict : DestDict) (packet : List Nat) (check_crc : Bool) :
    Except DepackError (Nat × Destination × Nat × Option (List Nat) × (Nat × Nat × Nat × Nat)) := do
  let some src_address := packet.get? 0 | .error .short
  let some proto := packet.get? 1 | .error .short
  if proto ≠ 0x01 then .error .badProtocol
  let some com := packet.get? 2 | .error .short
  let rw := (com &&& 0x20) >>> 5
  let verify := (com &&& 0x10) >>> 4
  let ack := (com &&& 0x08) >>> 3
  let increment := (com &&& 0x04) >>> 2
  let some status := packet.get? 3 | .error .short
  let some dest_address := packet.get? 4 | .error .short
  let some t5 := packet.get? 5 | .error .short
  let some t6 := packet.get? 6 | .error .short
  let tid := t5 * 256 + t6
  let dest := destination_lookup dict src_address dest_address
  if rw = 1 then
    -- Write reply
    let some crc := packet.get? 7 | .error .short
    crc_check check_crc dest.crc (packet.take 7) crc
    .ok (tid, dest, status, none, (rw, verify, ack, increment))
  else
    -- Read reply
    let some ms := packet.get? 8 | .error .short
    let some b := packet.get? 9 | .error .short
    let some ls := packet.get? 10 | .error .short
    let blength := (ms <<< 16) + (b <<< 8) + ls
    let length := blength / dest.word_width
    let some crc := packet.get? 11 | .error .short
    crc_check check_crc dest.crc (packet.take 11) crc
    let seg := (packet.drop 12).take blength
    let data ← do
      if dest.word_width = 1 then
        if seg.length = length then pure seg else .error .short
      else if dest.word_width = 2 then
        if seg.length = length * 2 then pure (le_words2 seg) else .error .short
      else if dest.word_width = 4 then
        if seg.length = length * 4 then pure (le_words4 seg) else .error .short
      else .error .badWordWidth
    let some crc2 := packet.get? (12 + blength) | .error .short
    crc_check check_crc dest.crc seg crc2
    .ok (tid, dest, status, some data, (rw, verify, ack, increment))

/-! ## SSDTP2 transport (SpaceWire.py) -/

/-- The 10 SSDTP2 length bytes written by `Interface._send`:
`struct.pack('!HLL', length >> 64 & 0xffff, length >> 32 & 0xffffffff,
length & 0xffffffff)` (SpaceWire.py line 164). -/
def encode_length (n : Nat) : List Nat :=
  pack_BE16 (n >>> 64 % 2 ^ 16) ++ pack_BE32 (n >>> 32 % 2 ^ 32) ++ pack_BE32 (n % 2 ^ 32)

/-- The length reconstruction in `Interface._receive` (SpaceWire.py line 225):
`reduce(lambda x, y: (x << 8) + y, bytes)` over the 10 header bytes, i.e. a
left fold seeded with the first byte. -/
def decode_length : List Nat → Nat
  | [] => 0
  | b :: rest => rest.foldl (fun x y => (x <<< 8) + y) b

/-- The full SSDTP2 frame for one `send`: flag `0x00` (complete, EOP),
reserved byte `0x00`, the 10 length bytes, then the packet body
(SpaceWire.py lines 162-165). -/
def ssdtp_send (packet : List Nat) : List Nat :=
  0x00 :: 0x00 :: encode_length packet.length ++ packet

/-- Failure modes of the modelled `Interface._receive`: `blocked` stands for
a read that would wait on the socket for bytes the modelled input stream
does not contain (including fuel exhaustion of the outer loop, which in the
source can loop forever on an endless fragment stream), and `badFlag` for
the `assert False` on an unknown header flag. -/
inductive RecvError where
  | blocked
  | badFlag
  deriving DecidableEq, Repr

/-- One pass of the `while` loop of `Interface._receive` (SpaceWire.py lines
217-241), operating on the modelled byte stream: read a 12-byte header; for
data flags `0x00`/`0x01`/`0x02` read the declared fragment and append it,
stopping on the terminal flags `0x00`/`0x01`; for the time-code control
flags `0x30`/`0x31` read exactly 2 bytes and `break` out of the loop with
the data assembled so far; any other flag is `assert False`. Returns the
assembled packet together with the unconsumed remainder of the stream. -/
def receive_go : Nat → List Nat → List Nat → Except RecvError (List Nat × List Nat)
  | 0, _, _ => .error .blocked
  | fuel + 1, stream, data =>
    if 12 ≤ stream.length then
      let header := stream.take 12
      let rest := stream.drop 12
      let flag := header.headD 0
      if flag = 0x00 ∨ flag = 0x01 ∨ flag = 0x02 then
        let fragment_size := decode_length (header.drop 2)
        if fragment_size ≤ rest.length then
          let tdata := rest.take fragment_size
          let data' := data ++ tdata
          if flag = 0x00 ∨ flag = 0x01 then .ok (data', rest.drop fragment_size)
          else receive_go fuel (rest.drop fragment_size) data'
        else .error .blocked
      else if flag = 0x30 ∨ flag = 0x31 then
        if 2 ≤ rest.length then .ok (data, rest.drop 2)
        else .error .blocked
      else .error .badFlag
    else .error .blocked

/-- Method `Interface._receive` on a modelled input stream: run the frame-assembly
loop starting from empty data. The fuel `stream.length + 1` suffices for
any terminating run, since every iteration consumes at least the 12 header
bytes. -/
def ssdtp_receive (stream : List Nat) : Except RecvError (List Nat × List Nat) :=
  receive_go (stream.length + 1) stream []

/-! ## Transaction engine state (RMAP.py, class Engine) -/

/-- Constant `Max_SID = 0x0fff` from RMAP.py. -/
def Max_SID : Nat := 0x0fff

/-- The engine state touched by the TID-pool operations: `replies` is the
per-TID mailbox table (a registered mailbox is `some queue`, an empty slot
`none`; queue entries are abstracted to `Nat`), `sids` the free-TID stack,
and `timedout_sids` the quarantine map `TID ↦ wall-clock instant`, an
association list standing for the Python dict. -/
structure EngineState where
  replies : List (Option (List Nat))
  sids : List Nat
  timedout_sids : List (Nat × Nat)
  deriving DecidableEq, Repr

/-- Python dict assignment `d[k] = v`: replace any existing binding of `k`. -/
def dict_set (m : List (Nat × Nat)) (k v : Nat) : List (Nat × Nat) :=
  m.filter (fun p => p.1 ≠ k) ++ [(k, v)]

/-- Method `Engine.return_sid(sid, timedout)` (RMAP.py lines 193-209): clear the
mailbox slot, then either stamp the TID into the quarantine map with the
current time (`timedout = true`) or push it back on the free stack. -/
def return_sid (s : EngineState) (sid : Nat) (timedout : Bool) (now : Nat) : EngineState :=
  let replies := s.replies.set sid none
  if timedout then
    { s with replies := replies, timedout_sids := dict_set s.timedout_sids sid now }
  else
    { s with replies := replies, sids := s.sids ++ [sid] }

/-- Destructor `Socket.__del__` (RMAP.py lines 259-261): `self.engine.return_sid(self.sid)`,
i.e. `return_sid` with its default `timedout = False`. -/
def socket_del (s : EngineState) (sid : Nat) (now : Nat) : EngineState :=
  return_sid s sid false now

/-- Method `Engine.clean_sid` (RMAP.py lines 211-222) at wall-clock instant `now`:
every quarantine entry strictly older than 10 seconds is deleted from the
map and its TID appended to the free stack. -/
def clean_sid (s : EngineState) (now : Nat) : EngineState :=
  if s.timedout_sids = [] then s
  else
    { s with
      timedout_sids := s.timedout_sids.filter (fun p => ¬ 10 < now - p.2),
      sids := s.sids ++ (s.timedout_sids.filter (fun p => 10 < now - p.2)).map Prod.fst }

/-- The delivery step of `Engine.Receiver.run` (RMAP.py lines 39-44) for a
decoded reply with transaction ID `tid`: look up `replies[tid]` (Python
raises `IndexError` when `tid` is out of range, modelled as `none`); if the
slot holds a mailbox, put the message into it, otherwise drop the reply. -/
def deliver (replies : List (Option (List Nat))) (tid : Nat) (msg : Nat) :
    Option (List (Option (List Nat))) :=
  match replies.get? tid with
  | some (some q) => some (replies.set tid (some (q ++ [msg])))
  | some none => some replies
  | none => none

/-! ## Socket read/write with a silent peer (RMAP.py, class Socket) -/

/-- The `while True` retry loop of `Socket.read` (RMAP.py lines 292-328) in
the regime where no reply is ever delivered to the socket's mailbox (silent
peer, or engine not running so no receiver thread exists): every
`self.reply.get(timeout=...)` raises `Queue.Empty`. Each iteration enqueues
one packet, times out, quarantines the old TID, acquires a fresh one, and
bumps the local and accumulated retry counters; with budget `some n` the
loop exits returning the sentinel `(None, -1)` once the local counter
exceeds `n`, and with budget `none` it never exits. `fuel` bounds the
number of modelled iterations; `none` means the fuel ran out with the loop
still running. Returns `(packets enqueued, accumulated retries, result)`. -/
def read_loop_no_reply (budget : Option Nat) :
    Nat → Nat → Nat → Nat → Option (Nat × Nat × (Option (List Nat) × Int))
  | 0, _, _, _ => none
  | fuel + 1, retry, enq, retries =>
    let enq := enq + 1
    let retry := retry + 1
    let retries := retries + 1
    match budget with
    | some n => if n < retry then some (enq, retries, (none, -1))
                else read_loop_no_reply budget fuel retry enq retries
    | none => read_loop_no_reply budget fuel retry enq retries

/-- Method `Socket.read` with a silent peer, starting from accumulated retry
counter `retries0`. -/
def read_no_reply (budget : Option Nat) (fuel : Nat) (retries0 : Nat) :
    Option (Nat × Nat × (Option (List Nat) × Int)) :=
  read_loop_no_reply budget fuel 0 0 retries0

/-- The `while True` retry loop of `Socket.write` (RMAP.py lines 359-400)
with a silent peer. With `ack = 0` the function returns `None` (modelled
`Option.none` in the status position) right after the first enqueue,
without waiting; otherwise the structure matches `read_loop_no_reply`,
returning status sentinel `-1` on budget exhaustion. -/
def write_loop_no_reply (budget : Option Nat) (ack : Nat) :
    Nat → Nat → Nat → Nat → Option (Nat × Nat × Option Int)
  | 0, _, _, _ => none
  | fuel + 1, retry, enq, retries =>
    let enq := enq + 1
    if ack = 0 then some (enq, retries, none)
    else
      let retry := retry + 1
      let retries := retries + 1
      match budget with
      | some n => if n < retry then some (enq, retries, some (-1))
                  else write_loop_no_reply budget ack fuel retry enq retries
      | none => write_loop_no_reply budget ack fuel retry enq retries

/-- Method `Socket.write` with a silent peer, starting from accumulated retry
counter `retries0`. -/
def write_no_reply (budget : Option Nat) (ack : Nat) (fuel : Nat) (retries0 : Nat) :
    Option (Nat × Nat × Option Int) :=
  write_loop_no_reply budget ack fuel 0 0 retries0

/-! ## Helper lemmas -/

/-- The CRC fold over a full 256-entry table never hits an out-of-range
index, whatever the accumulator, so it always produces a value. -/
lemma crc_fold_isSome (table : List Nat) (h : table.length = 256) (data : List Nat) :
    ∀ a : Nat, ∃ c,
      data.foldl (fun acc y => acc.bind fun x => table.get? ((x ^^^ y) &&& 0xff)) (some a) = some c := by
  induction data with
  | nil => exact fun a => ⟨a, rfl⟩
  | cons y ys ih =>
    intro a
    have hidx : ((a ^^^ y) &&& 0xff) < table.length := by
      have hle : ((a ^^^ y) &&& 0xff) ≤ 0xff := Nat.and_le_right
      omega
    rw [List.foldl_cons]
    have hstep :
        ((some a).bind fun x => table.get? ((x ^^^ y) &&& 0xff)) =
          some (table.get ⟨(a ^^^ y) &&& 0xff, hidx⟩) := by
      simp [List.get?_eq_get hidx]
    rw [hstep]
    exact ih _

/-- Once the CRC fold accumulator is `none`, it stays `none`. -/
lemma crc_fold_none (table : List Nat) (data : List Nat) :
    data.foldl (fun acc y => acc.bind fun x => table.get? ((x ^^^ y) &&& 0xff)) none = none := by
  induction data with
  | nil => rfl
  | cons y ys ih =>
    rw [List.foldl_cons]
    exact ih

set_option maxRecDepth 4096 in
/-- The function `calc_crc` returns a value for every CRC type other than `CRC_Custom`. -/
lemma calc_crc_isSome (crc : Option Int) (h : crc ≠ CRC_Custom) (data : List Nat) :
    ∃ c, calc_crc crc data = some c := by
  unfold calc_crc
  split_ifs with h1 h2
  · exact crc_fold_isSome CRCTable_DraftF (by decide) data 0
  · exact crc_fold_isSome CRCTable_DraftE (by decide) data 0
  · exact ⟨0, rfl⟩

/-! ## Claim theorems -/

set_option maxRecDepth 8192 in
/-- C1: `packetize(tid=0x0001, dest={dst=0x30, src=0xFE, key=0x02,
variant=DraftF, width=1}, addr=0x00000000, length=4, no data)` with default
flags produces exactly the 15 header bytes
`30 01 4C 02 FE 00 01 00 00 00 00 00 00 00 04` followed by one byte equal
to the Draft-F CRC of those 15 bytes (which is `0x81`), and nothing else. -/
theorem packetize_read_exact_header :
    packetize 0x0001 ⟨0x30, 0x02, 0xFE, CRC_DraftF, 1⟩ 0x00000000 4 none 1 1 1 0 =
      some ([0x30, 0x01, 0x4C, 0x02, 0xFE, 0x00, 0x01, 0x00, 0x00, 0x00, 0x00,
             0x00, 0x00, 0x00, 0x04] ++ [0x81]) ∧
    calc_crc CRC_DraftF
        [0x30, 0x01, 0x4C, 0x02, 0xFE, 0x00, 0x01, 0x00, 0x00, 0x00, 0x00,
         0x00, 0x00, 0x00, 0x04] = some 0x81 := by
  exact ⟨by decide, by decide⟩

set_option maxRecDepth 8192 in
/-- C10: the shipped `CRCTable_Custom` is empty, so `calc_crc` with the
Custom CRC type returns `0x00` on the empty byte sequence but hits an
out-of-range table lookup (modelled `none`, Python `IndexError`) on every
non-empty input; the `None` CRC type and any unrecognised CRC type return
`0x00` for every input. -/
theorem calc_crc_custom_and_default (b : Nat) (bs : List Nat) (v : Option Int)
    (hv : v ≠ CRC_DraftE ∧ v ≠ CRC_DraftF ∧ v ≠ CRC_52C ∧ v ≠ CRC_Custom) :
    CRCTable_Custom = [] ∧
    calc_crc CRC_Custom [] = some 0 ∧
    calc_crc CRC_Custom (b :: bs) = none ∧
    calc_crc none bs = some 0 ∧
    calc_crc v bs = some 0 := by
  obtain ⟨hE, hF, h52, hC⟩ := hv
  refine ⟨rfl, by decide, ?_, ?_, ?_⟩
  · show calc_crc CRC_Custom (b :: bs) = none
    unfold calc_crc
    rw [if_neg (by decide), if_neg (by decide), if_pos rfl, List.foldl_cons]
    exact crc_fold_none CRCTable_Custom bs
  · unfold calc_crc
    rw [if_neg (by decide), if_neg (by decide), if_neg (by decide)]
  · unfold calc_crc
    rw [if_neg (by simp [hF, h52]), if_neg (by simp [hE]), if_neg (by simp [hC])]

/-- Witness for `calc_crc_custom_and_default` at `b = 2`, `bs = [1]`,
`v = some 7`. -/
theorem calc_crc_custom_and_default_witness :
    ((some 7 : Option Int) ≠ CRC_DraftE ∧ (some 7 : Option Int) ≠ CRC_DraftF ∧
     (some 7 : Option Int) ≠ CRC_52C ∧ (some 7 : Option Int) ≠ CRC_Custom) ∧
    (CRCTable_Custom = [] ∧
     calc_crc CRC_Custom [] = some 0 ∧
     calc_crc CRC_Custom (2 :: [1]) = none ∧
     calc_crc none [1] = some 0 ∧
     calc_crc (some 7) [1] = some 0) :=
  ⟨by decide, calc_crc_custom_and_default 2 [1] (some 7) (by decide)⟩

/-- C2 counterexample: in an engine state whose mailbox slot 0 is registered
(an outstanding, un-replied request belongs to TID 0), destroying the
socket that owns TID 0 returns the TID to the free stack and leaves the
quarantine map empty — the TID is *not* quarantined, contrary to the claim
that a socket with an outstanding request quarantines its TID on
destruction. -/
theorem socket_del_frees_despite_outstanding :
    socket_del ⟨[some []], [], []⟩ 0 5 = ⟨[none], [0], []⟩ := by decide

/-- C2 amended: on socket destruction (`Socket.__del__` calls
`return_sid(sid)` with its default `timedout = False`), the TID is always
pushed back on the free stack and its mailbox slot cleared, regardless of
whether the socket has an outstanding request; the quarantine map is never
touched. -/
theorem socket_del_always_frees (s : EngineState) (sid : Nat) (now : Nat) :
    socket_del s sid now =
      { s with replies := s.replies.set sid none, sids := s.sids ++ [sid] } := rfl

/-- C6: for a reply decoded with transaction ID `tid` (in range of the
mailbox table), the receiver's delivery step succeeds and: the reply is
appended to the mailbox registered at slot `tid` when that slot is
non-null, the table is left untouched when the slot is null (the reply is
dropped), and every slot other than `tid` is unchanged in either case. -/
theorem deliver_routes_by_tid (replies : List (Option (List Nat))) (tid : Nat) (msg : Nat)
    (h : tid < replies.length) :
    ∃ r', deliver replies tid msg = some r' ∧
      (∀ q, replies.get? tid = some (some q) → r'.get? tid = some (some (q ++ [msg]))) ∧
      (replies.get? tid = some none → r' = replies) ∧
      (∀ j, j ≠ tid → r'.get? j = replies.get? j) := by
  rcases hx : replies.get? tid with _ | o
  · exact absurd (List.get?_eq_none.mp hx) (Nat.not_le.mpr h)
  · rcases o with _ | q
    · refine ⟨replies, ?_, ?_, fun _ => rfl, fun j _ => rfl⟩
      · unfold deliver; rw [hx]
      · intro q hq; simp at hq
    · refine ⟨replies.set tid (some (q ++ [msg])), ?_, ?_, ?_, ?_⟩
      · unfold deliver; rw [hx]
      · intro q' hq'
        obtain rfl : q = q' := by simpa using hq'
        exact List.get?_set_eq_of_lt _ h
      · intro hq; simp at hq
      · intro j hj
        exact List.get?_set_ne _ _ (fun hh => hj hh.symm)

/-- Witness for `deliver_routes_by_tid` at the one-slot table `[some [5]]`,
`tid = 0`, `msg = 7`. -/
theorem deliver_routes_by_tid_witness :
    0 < ([some [5]] : List (Option (List Nat))).length ∧
    (∃ r', deliver [some [5]] 0 7 = some r' ∧
      (∀ q, ([some [5]] : List (Option (List Nat))).get? 0 = some (some q) →
        r'.get? 0 = some (some (q ++ [7]))) ∧
      (([some [5]] : List (Option (List Nat))).get? 0 = some none → r' = [some [5]]) ∧
      (∀ j, j ≠ 0 → r'.get? j = ([some [5]] : List (Option (List Nat))).get? j)) :=
  ⟨by decide, deliver_routes_by_tid [some [5]] 0 7 (by decide)⟩

/-- C7: sweeping the quarantine map at instant `now` (`clean_sid`, grace
period 10 seconds) keeps an entry `(sid, t0)` exactly when `now - t0 ≤ 10`;
an entry strictly older than the grace period is removed and its TID pushed
on the free stack; and a TID whose entry survives the sweep is not on the
free stack afterwards (hence cannot be allocated), provided it was not
free before and the quarantine keys are distinct. -/
theorem clean_sid_sweeps_by_grace (s : EngineState) (now sid t0 : Nat) :
    ((sid, t0) ∈ (clean_sid s now).timedout_sids ↔
      (sid, t0) ∈ s.timedout_sids ∧ now - t0 ≤ 10) ∧
    ((sid, t0) ∈ s.timedout_sids → 10 < now - t0 → sid ∈ (clean_sid s now).sids) ∧
    ((sid, t0) ∈ s.timedout_sids → now - t0 ≤ 10 → sid ∉ s.sids →
      (s.timedout_sids.map Prod.fst).Nodup → sid ∉ (clean_sid s now).sids) := by
  unfold clean_sid
  split_ifs with hemp
  · rw [hemp]
    exact ⟨by simp, by simp, fun h _ _ _ => absurd h (by simp)⟩
  · refine ⟨?_, ?_, ?_⟩
    · simp only [List.mem_filter, decide_eq_true_eq, Nat.not_lt]
    · intro hmem hold
      simp only [List.mem_append, List.mem_map]
      exact Or.inr ⟨(sid, t0), List.mem_filter.mpr ⟨hmem, by simpa using hold⟩, rfl⟩
    · intro hmem hyoung hfree hnodup
      simp only [List.mem_append, List.mem_map]
      rintro (hl | ⟨⟨sid', t'⟩, hp, rfl⟩)
      · exact hfree hl
      · have hp' := (List.mem_filter.mp hp).1
        have := List.inj_on_of_nodup_map hnodup hp' hmem rfl
        cases this
        have : 10 < now - t0 := by simpa using (List.mem_filter.mp hp).2
        omega

/-- With finite budget `n` and the local counter at `retry ≤ n`, the silent
read loop runs for the remaining `n - retry + 1` iterations, enqueueing one
packet and bumping both counters per iteration, then returns `(None, -1)`. -/
lemma read_loop_no_reply_count (n : Nat) :
    ∀ fuel retry enq retries, retry ≤ n → n - retry < fuel →
      read_loop_no_reply (some n) fuel retry enq retries =
        some (enq + (n - retry) + 1, retries + (n - retry) + 1, (none, -1)) := by
  intro fuel
  induction fuel with
  | zero => intro retry enq retries _ hf; omega
  | succ fuel ih =>
    intro retry enq retries hr hf
    show (if n < retry + 1 then some (enq + 1, retries + 1, (none, -1))
          else read_loop_no_reply (some n) fuel (retry + 1) (enq + 1) (retries + 1)) =
        some (enq + (n - retry) + 1, retries + (n - retry) + 1, (none, -1))
    by_cases hc : n < retry + 1
    · rw [if_pos hc]
      have : n - retry = 0 := by omega
      rw [this]
    · rw [if_neg hc]
      rw [ih (retry + 1) (enq + 1) (retries + 1) (by omega) (by omega)]
      have h1 : enq + 1 + (n - (retry + 1)) + 1 = enq + (n - retry) + 1 := by omega
      have h2 : retries + 1 + (n - (retry + 1)) + 1 = retries + (n - retry) + 1 := by omega
      rw [h1, h2]

/-- With an infinite budget (`retry = None`) and a silent peer, the read
loop never returns: it exhausts any amount of fuel. -/
lemma read_loop_no_reply_infinite :
    ∀ fuel retry enq retries, read_loop_no_reply none fuel retry enq retries = none := by
  intro fuel
  induction fuel with
  | zero => intro _ _ _; rfl
  | succ fuel ih => intro retry enq retries; exact ih (retry + 1) (enq + 1) (retries + 1)

/-- With an infinite budget (`retry = None`), acknowledgement requested
(`ack ≠ 0`) and a silent peer, the write loop never returns: it exhausts
any amount of fuel. -/
lemma write_loop_no_reply_infinite (ack : Nat) (hack : ack ≠ 0) :
    ∀ fuel retry enq retries, write_loop_no_reply none ack fuel retry enq retries = none := by
  intro fuel
  induction fuel with
  | zero => intro _ _ _; rfl
  | succ fuel ih =>
    intro retry enq retries
    show (if ack = 0 then some (enq + 1, retries, none)
          else write_loop_no_reply none ack fuel (retry + 1) (enq + 1) (retries + 1)) = none
    rw [if_neg hack]
    exact ih (retry + 1) (enq + 1) (retries + 1)

/-- Counterpart of `read_loop_no_reply_count` for the silent write loop with
acknowledgement requested (`ack ≠ 0`): the status sentinel is `-1`. -/
lemma write_loop_no_reply_count (n : Nat) (ack : Nat) (hack : ack ≠ 0) :
    ∀ fuel retry enq retries, retry ≤ n → n - retry < fuel →
      write_loop_no_reply (some n) ack fuel retry enq retries =
        some (enq + (n - retry) + 1, retries + (n - retry) + 1, some (-1)) := by
  intro fuel
  induction fuel with
  | zero => intro retry enq retries _ hf; omega
  | succ fuel ih =>
    intro retry enq retries hr hf
    show (if ack = 0 then some (enq + 1, retries, none)
          else if n < retry + 1 then some (enq + 1, retries + 1, some (-1))
          else write_loop_no_reply (some n) ack fuel (retry + 1) (enq + 1) (retries + 1)) =
        some (enq + (n - retry) + 1, retries + (n - retry) + 1, some (-1))
    rw [if_neg hack]
    by_cases hc : n < retry + 1
    · rw [if_pos hc]
      have : n - retry = 0 := by omega
      rw [this]
    · rw [if_neg hc]
      rw [ih (retry + 1) (enq + 1) (retries + 1) (by omega) (by omega)]
      have h1 : enq + 1 + (n - (retry + 1)) + 1 = enq + (n - retry) + 1 := by omega
      have h2 : retries + 1 + (n - (retry + 1)) + 1 = retries + (n - retry) + 1 := by omega
      rw [h1, h2]

/-- C4: a socket with retry budget `k` and a peer that never replies:
`read` returns the sentinel `(None, -1)` and `write` with `ack = 1` returns
the sentinel `-1`, in each case with exactly `k + 1` packets enqueued and
the accumulated retries counter increased from `retries0` by exactly
`k + 1`. The fuel `k + 1` shows the loop finishes within `k + 1`
iterations; the enqueue count shows it takes no fewer. -/
theorem silent_peer_retry_bound (k retries0 : Nat) :
    read_no_reply (some k) (k + 1) retries0 =
      some (k + 1, retries0 + (k + 1), (none, -1)) ∧
    write_no_reply (some k) 1 (k + 1) retries0 =
      some (k + 1, retries0 + (k + 1), some (-1)) := by
  constructor
  · have h := read_loop_no_reply_count k (k + 1) 0 0 retries0 (by omega) (by omega)
    simpa [read_no_reply, Nat.add_assoc] using h
  · have h := write_loop_no_reply_count k 1 (by omega) (k + 1) 0 0 retries0 (by omega) (by omega)
    simpa [write_no_reply, Nat.add_assoc] using h

/-- C5 counterexample: a read issued while the engine is not running (so no
receiver thread ever delivers a reply), with retry budget 0, returns the
ordinary sentinel value `(None, -1)` after one timed-out attempt — it does
not fail with an `EngineNotRunning` error; no such error exists anywhere in
the code, whose `Engine.start` docstring says reads merely "stop forever
unless timeout is set" before start. -/
theorem not_running_read_returns_sentinel :
    read_no_reply (some 0) 1 0 = some (1, 1, (none, -1)) := by decide

/-- C5 amended: an operation issued before `start()` or after `stop()` does
not fail with an `EngineNotRunning` error (the code has no such error):
with no receiver thread running, a read with finite retry budget `k` times
out `k + 1` times and returns the sentinel `(None, -1)`, a write with
`ack = 1` and finite budget `k` likewise returns the sentinel `-1`, and
with the default infinite retry budget neither a read nor a write with
`ack = 1` ever returns. -/
theorem not_running_no_engine_error (k retries0 fuel : Nat) :
    read_no_reply (some k) (k + 1) retries0 =
      some (k + 1, retries0 + (k + 1), (none, -1)) ∧
    write_no_reply (some k) 1 (k + 1) retries0 =
      some (k + 1, retries0 + (k + 1), some (-1)) ∧
    read_no_reply none fuel retries0 = none ∧
    write_no_reply none 1 fuel retries0 = none := by
  refine ⟨?_, ?_, ?_, ?_⟩
  · have h := read_loop_no_reply_count k (k + 1) 0 0 retries0 (by omega) (by omega)
    simpa [read_no_reply, Nat.add_assoc] using h
  · have h := write_loop_no_reply_count k 1 (by omega) (k + 1) 0 0 retries0 (by omega) (by omega)
    simpa [write_no_reply, Nat.add_assoc] using h
  · exact read_loop_no_reply_infinite fuel 0 0 retries0
  · exact write_loop_no_reply_infinite 1 (by omega) fuel 0 0 retries0

/-- The sender's 10 length bytes decode back to the length via the
receiver's fold, for any value below `2^80`. -/
lemma decode_encode_length (n : Nat) (h : n < 2 ^ 80) :
    decode_length (encode_length n) = n := by
  simp only [encode_length, decode_length, pack_BE16, pack_BE32, List.cons_append,
    List.nil_append, List.foldl_cons, List.foldl_nil, Nat.shiftLeft_eq, Nat.shiftRight_eq_div_pow]
  norm_num
  omega

/-- C8: for every `n ≤ 2^80 - 1`, decoding the 10 SSDTP2 length bytes
produced by the sender's `!HLL` packing of `n` with the receiver's fold
`(x, y) ↦ (x << 8) + y` yields `n` again. -/
theorem ssdtp_length_roundtrip (n : Nat) (h : n < 2 ^ 80) :
    decode_length (encode_length n) = n :=
  decode_encode_length n h

/-- Witness for `ssdtp_length_roundtrip` at the largest representable
length, `2^80 - 1`. -/
theorem ssdtp_length_roundtrip_witness :
    2 ^ 80 - 1 < 2 ^ 80 ∧ decode_length (encode_length (2 ^ 80 - 1)) = 2 ^ 80 - 1 :=
  ⟨by norm_num, ssdtp_length_roundtrip (2 ^ 80 - 1) (by norm_num)⟩

/-- The encoding `encode_length` always yields exactly 10 bytes. -/
lemma encode_length_len (n : Nat) : (encode_length n).length = 10 := by
  simp [encode_length, pack_BE16, pack_BE32]

/-- One iteration of the receive loop on a time-code control frame: the
12-byte header and exactly 2 payload bytes are consumed and the loop
returns immediately with the data assembled so far. -/
lemma receive_go_timecode (fuel flag r1 : Nat) (junk tcb rest data : List Nat)
    (hflag : flag = 0x30 ∨ flag = 0x31) (hjunk : junk.length = 10) (htcb : tcb.length = 2) :
    receive_go (fuel + 1) ((flag :: r1 :: junk) ++ (tcb ++ rest)) data = .ok (data, rest) := by
  have hlen12 : (flag :: r1 :: junk).length = 12 := by simp [hjunk]
  have hstream : 12 ≤ ((flag :: r1 :: junk) ++ (tcb ++ rest)).length := by
    simp [hjunk]
  unfold receive_go
  rw [if_pos hstream, List.take_left' hlen12, List.drop_left' hlen12]
  rcases hflag with rfl | rfl <;>
    · simp only [List.headD_cons]
      rw [if_neg (by norm_num), if_pos (by norm_num), if_pos (by simp [htcb]),
        List.drop_left' htcb]

/-- One iteration of the receive loop on a non-terminal data fragment whose
header declares the body length: the fragment body is appended to the
assembled data and the loop continues on the remaining stream. -/
lemma receive_go_data_frag (fuel r1 : Nat) (body rest data : List Nat)
    (hb : body.length < 2 ^ 80) :
    receive_go (fuel + 1) ((0x02 :: r1 :: encode_length body.length) ++ (body ++ rest)) data =
      receive_go fuel rest (data ++ body) := by
  have hlen12 : (0x02 :: r1 :: encode_length body.length).length = 12 := by
    simp [encode_length_len]
  have hstream : 12 ≤ ((0x02 :: r1 :: encode_length body.length) ++ (body ++ rest)).length := by
    simp [encode_length_len]
  conv_lhs => unfold receive_go
  rw [if_pos hstream, List.take_left' hlen12, List.drop_left' hlen12]
  simp only [List.headD_cons]
  rw [if_pos (by norm_num)]
  have hdrop2 : (0x02 :: r1 :: encode_length body.length).drop 2 = encode_length body.length := rfl
  rw [hdrop2, decode_encode_length body.length hb]
  rw [if_pos (by simp), List.take_left, List.drop_left]
  rw [if_neg (by norm_num)]

set_option maxRecDepth 2048 in
/-- C9: when the receive loop encounters a time-code control frame (flag
`0x30` or `0x31`), it consumes exactly the 2 payload bytes of that frame
and returns immediately with the data fragments assembled so far (first
conjunct, for an arbitrary loop state `data`); in particular a full
`receive()` on a stream holding a non-terminal fragment followed by a
time-code frame returns the fragment body even though no EOP/EEP frame has
terminated the SpaceWire packet (second conjunct). -/
theorem receive_timecode_early_return (flag r1a r1b fuel : Nat)
    (junk tcb rest data fp : List Nat)
    (hflag : flag = 0x30 ∨ flag = 0x31) (hjunk : junk.length = 10)
    (htcb : tcb.length = 2) (hfp : fp.length < 2 ^ 80) :
    receive_go (fuel + 1) ((flag :: r1a :: junk) ++ (tcb ++ rest)) data = .ok (data, rest) ∧
    ssdtp_receive ((0x02 :: r1b :: encode_length fp.length) ++
        (fp ++ ((flag :: r1a :: junk) ++ (tcb ++ rest)))) = .ok (fp, rest) := by
  refine ⟨receive_go_timecode fuel flag r1a junk tcb rest data hflag hjunk htcb, ?_⟩
  unfold ssdtp_receive
  have hL : ((0x02 :: r1b :: encode_length fp.length) ++
      (fp ++ ((flag :: r1a :: junk) ++ (tcb ++ rest)))).length =
      (fp.length + rest.length + 25) + 1 := by
    simp [encode_length_len, hjunk, htcb]
    omega
  rw [hL, receive_go_data_frag, List.nil_append]
  · have h26 : fp.length + rest.length + 26 = (fp.length + rest.length + 25) + 1 := by omega
    rw [h26]
    exact receive_go_timecode _ flag r1a junk tcb rest fp hflag hjunk htcb
  · exact hfp

/-- Witness for `receive_timecode_early_return`: flag `0x30`, a 10-byte
reserved block of zeros, time-code payload `[1, 2]`, remainder `[42]`,
loop state `[9]`, fragment body `[7, 8]`. -/
theorem receive_timecode_early_return_witness :
    ((0x30 = 0x30 ∨ 0x30 = 0x31) ∧ (List.replicate 10 0).length = 10 ∧
      ([1, 2] : List Nat).length = 2 ∧ ([7, 8] : List Nat).length < 2 ^ 80) ∧
    (receive_go (0 + 1) ((0x30 :: 0 :: List.replicate 10 0) ++ ([1, 2] ++ [42])) [9] =
        .ok ([9], [42]) ∧
      ssdtp_receive ((0x02 :: 0 :: encode_length ([7, 8] : List Nat).length) ++
          ([7, 8] ++ ((0x30 :: 0 :: List.replicate 10 0) ++ ([1, 2] ++ [42])))) =
        .ok ([7, 8], [42])) :=
  ⟨⟨by decide, by decide, by decide, by decide⟩,
    receive_timecode_early_return 0x30 0 0 0 (List.replicate 10 0) [1, 2] [42] [9] [7, 8]
      (by decide) (by decide) (by decide) (by decide)⟩

/-- Witness for `clean_sid_sweeps_by_grace` on the quarantine map
`[(3, 0), (4, 95)]` at `now = 100`: entry `(4, 95)` is 5 seconds old and
survives; entry `(3, 0)` is 100 seconds old and is freed. -/
theorem clean_sid_sweeps_by_grace_witness :
    ((4, 95) ∈ (clean_sid ⟨[], [], [(3, 0), (4, 95)]⟩ 100).timedout_sids ∧
      3 ∈ (clean_sid ⟨[], [], [(3, 0), (4, 95)]⟩ 100).sids ∧
      4 ∉ (clean_sid ⟨[], [], [(3, 0), (4, 95)]⟩ 100).sids) := by
  have h := clean_sid_sweeps_by_grace ⟨[], [], [(3, 0), (4, 95)]⟩ 100 4 95
  have h3 := clean_sid_sweeps_by_grace ⟨[], [], [(3, 0), (4, 95)]⟩ 100 3 0
  exact ⟨h.1.mpr ⟨by decide, by decide⟩,
         h3.2.1 (by decide) (by decide),
         h.2.2 (by decide) (by decide) (by decide) (by decide)⟩

/-- The header `rmap_header` always yields exactly 15 bytes. -/
lemma rmap_header_length (tid : Nat) (dest : Destination) (address length com ea : Nat) :
    (rmap_header tid dest address length com ea).length = 15 := by
  simp [rmap_header, pack_BE16, pack_BE32]

/-- C3 (amended): for every CRC variant among Draft E, Draft F and 52C,
every destination carrying that variant with a supported word width, and
every command produced by `packetize` (arguments within the ranges Python's
`struct.pack` accepts): the byte at offset 15 is `calc_crc` of the 15
header bytes, and, when data is present, the bytes after offset 16 are the
width-encoded data followed by one byte equal to `calc_crc` of that encoded
data. (The claim's further assertion that `depacketize` with
`check_crc=true` accepts such a command packet is refuted separately.) -/
theorem packetize_crc_fields (dest : Destination) (tid address length : Nat)
    (data : Option (List Nat)) (increment verify ack extended_address : Nat)
    (hv : dest.crc = CRC_DraftE ∨ dest.crc = CRC_DraftF ∨ dest.crc = CRC_52C)
    (hw : dest.word_width = 1 ∨ dest.word_width = 2 ∨ dest.word_width = 4)
    (htid : tid < 2 ^ 16) (haddr : address < 2 ^ 32)
    (hdata : ∀ d, data = some d → ∀ w ∈ d, w < 2 ^ (8 * dest.word_width)) :
    ∃ p, packetize tid dest address length data increment verify ack extended_address = some p ∧
      calc_crc dest.crc (p.take 15) = p.get? 15 ∧
      ((data = none ∧ p.length = 16) ∨
        (∃ d enc dcrc, data = some d ∧ encode_data dest.word_width d = some enc ∧
          p.drop 16 = enc ++ [dcrc] ∧ calc_crc dest.crc enc = some dcrc)) := by
  have hnc : dest.crc ≠ CRC_Custom := by
    rcases hv with h | h | h <;> rw [h] <;> decide
  cases data with
  | none =>
    obtain ⟨hc, hhc⟩ := calc_crc_isSome dest.crc hnc
      (rmap_header tid dest address length ((0x1 <<< 6) + ((0x2 + increment) <<< 2) + 0x0)
        extended_address)
    have hlen := rmap_header_length tid dest address length
      ((0x1 <<< 6) + ((0x2 + increment) <<< 2) + 0x0) extended_address
    refine ⟨rmap_header tid dest address length
        ((0x1 <<< 6) + ((0x2 + increment) <<< 2) + 0x0) extended_address ++ [hc],
      ?_, ?_, Or.inl ⟨rfl, ?_⟩⟩
    · simp only [packetize]
      rw [hhc]
    · rw [List.take_left' hlen, hhc,
        List.get?_append_right (by omega), hlen]
      simp
    · rw [List.length_append, hlen]
      rfl
  | some d =>
    obtain ⟨hc, hhc⟩ := calc_crc_isSome dest.crc hnc
      (rmap_header tid dest address length
        ((0x1 <<< 6) + ((0x8 + (verify <<< 2) + (ack <<< 1) + increment) <<< 2) + 0x0)
        extended_address)
    have hlen := rmap_header_length tid dest address length
      ((0x1 <<< 6) + ((0x8 + (verify <<< 2) + (ack <<< 1) + increment) <<< 2) + 0x0)
      extended_address
    obtain ⟨enc, henc⟩ : ∃ enc, encode_data dest.word_width d = some enc := by
      unfold encode_data
      rcases hw with h | h | h <;> rw [h] <;> simp
    obtain ⟨dc, hdc⟩ := calc_crc_isSome dest.crc hnc enc
    refine ⟨rmap_header tid dest address length
        ((0x1 <<< 6) + ((0x8 + (verify <<< 2) + (ack <<< 1) + increment) <<< 2) + 0x0)
        extended_address ++ [hc] ++ enc ++ [dc],
      ?_, ?_, Or.inr ⟨d, enc, dc, rfl, henc, ?_, hdc⟩⟩
    · simp only [packetize, hhc, henc, hdc]
    · rw [List.append_assoc, List.append_assoc, List.take_left' hlen, hhc,
        List.get?_append_right (by omega), hlen]
      simp
    · rw [List.append_assoc]
      exact List.drop_left' (by rw [List.length_append, hlen]; rfl)

set_option maxRecDepth 8192 in
/-- Witness for `packetize_crc_fields`: a Draft-E write command with word
width 2, TID 3, address `0x10`, data `[0xBEEF, 0x01]`. -/
theorem packetize_crc_fields_witness :
    ((Destination.mk 0x30 0x02 0xFE CRC_DraftE 2).crc = CRC_DraftE ∨
      (Destination.mk 0x30 0x02 0xFE CRC_DraftE 2).crc = CRC_DraftF ∨
      (Destination.mk 0x30 0x02 0xFE CRC_DraftE 2).crc = CRC_52C) ∧
    ((Destination.mk 0x30 0x02 0xFE CRC_DraftE 2).word_width = 1 ∨
      (Destination.mk 0x30 0x02 0xFE CRC_DraftE 2).word_width = 2 ∨
      (Destination.mk 0x30 0x02 0xFE CRC_DraftE 2).word_width = 4) ∧
    (∃ p, packetize 3 (Destination.mk 0x30 0x02 0xFE CRC_DraftE 2) 0x10 2
        (some [0xBEEF, 0x01]) 1 1 1 0 = some p ∧
      calc_crc CRC_DraftE (p.take 15) = p.get? 15 ∧
      ((some [0xBEEF, 0x01] = none ∧ p.length = 16) ∨
        (∃ d enc dcrc, some [0xBEEF, 0x01] = some d ∧ encode_data 2 d = some enc ∧
          p.drop 16 = enc ++ [dcrc] ∧ calc_crc CRC_DraftE enc = some dcrc))) :=
  ⟨Or.inl rfl, Or.inr (Or.inl rfl),
    packetize_crc_fields (Destination.mk 0x30 0x02 0xFE CRC_DraftE 2) 3 0x10 2
      (some [0xBEEF, 0x01]) 1 1 1 0 (Or.inl rfl) (Or.inr (Or.inl rfl))
      (by decide) (by decide)
      (by intro d hd w hw
          cases hd
          fin_cases hw <;> decide)⟩

set_option maxRecDepth 8192 in
/-- C3 counterexample: the claim also asserts that `depacketize` with
`check_crc=true` accepts every command produced by `packetize`. It does
not: `depacketize` parses the buffer with the *reply* layout, so for the
read command with Draft-F CRC, word width 1, TID 1, address `0x00000001`,
length 4 (with the command's destination registered in the dictionary, as
constructing it with full arguments does), the byte at reply-offset 11 —
actually the low address byte `0x01` — is compared against a CRC computed
over bytes 0..10 and the check fails with a CRC mismatch (Python
`AssertionError`). -/
theorem depacketize_rejects_packetized_command :
    ∃ p, packetize 1 ⟨0x30, 0x02, 0xFE, CRC_DraftF, 1⟩ 0x00000001 4 none 1 1 1 0 = some p ∧
      depacketize [((0x30, 0xFE), (0x02, CRC_DraftF, 1))] p true =
        .error .crcMismatch :=
  ⟨[0x30, 0x01, 0x4C, 0x02, 0xFE, 0x00, 0x01, 0x00, 0x00, 0x00, 0x00, 0x01,
    0x00, 0x00, 0x04, 0x0D], by decide, by rfl⟩

end PySpW
